import Mathlib

/-!
Shallow embedding of the enrollment saga of the learning-platform repository:
the enrollment entity and its validation (enrollment-service/internal/domain/
enrollment.go) and the saga orchestrator (Execute, CancelEnrollment,
processPayment, refundPayment in the saga package), together with the store
contract the orchestrator consumes.

Remote collaborators (payment client, store faults, event publisher) are
modelled as an explicit environment value: each remote call's outcome is a
field of `Env`, and store writes are explicit state passing over an
association list.  `time.Time` is modelled as an abstract `Nat` instant,
`float64` amounts as `Rat`.
-/

namespace Saga

/-- Enrollment status constants of `domain.EnrollmentStatus`
(PENDING, ACTIVE, COMPLETED, CANCELLED, REFUNDED). -/
inductive EnrollmentStatus where
  | pending
  | active
  | completed
  | cancelled
  | refunded
deriving DecidableEq, Repr

/-- Payment status of the payment service protocol.  The orchestrator only
distinguishes `completed` from everything else; the remaining constructors
stand for the other members of the enumerated set (e.g. a declined or
errored charge). -/
inductive PaymentStatus where
  | completed
  | declined
  | failed
deriving DecidableEq, Repr

/-- The enrollment entity (`domain.Enrollment`). -/
structure Enrollment where
  id : String
  userID : String
  courseID : String
  status : EnrollmentStatus
  amountPaid : Rat
  paymentID : String
  enrolledAt : Nat
  completedAt : Option Nat
  progressPercentage : Int
deriving DecidableEq, Repr

/-- Error values the saga layer produces.  Wrapper constructors
(`paymentFailed`, `activationFailed`) model the Go `fmt.Errorf("...: %w", err)`
wrapping, so the provenance structure of a returned error is preserved. -/
inductive SagaError where
  | invalidInput
  | notFound
  | storeFailure
  | invalidState (st : EnrollmentStatus)
  | paymentServiceError
  | paymentBadStatus (st : PaymentStatus)
  | refundServiceError
  | refundBadStatus (st : PaymentStatus)
  | paymentFailed (inner : SagaError)
  | activationFailed (inner : SagaError)
deriving DecidableEq, Repr

/-- `(*Enrollment).Validate`: empty user id, empty course id, negative
amount, or out-of-range progress each yield `ErrInvalidInput`, checked in the
source's order. -/
def Validate (e : Enrollment) : Except SagaError Unit :=
  if e.userID = "" then .error .invalidInput
  else if e.courseID = "" then .error .invalidInput
  else if e.amountPaid < 0 then .error .invalidInput
  else if e.progressPercentage < 0 ∨ e.progressPercentage > 100 then .error .invalidInput
  else .ok ()

/-- `(*Enrollment).IsActive`. -/
def IsActive (e : Enrollment) : Bool :=
  e.status = EnrollmentStatus.active

/-- `(*Enrollment).CanBeCancelled`: true only in ACTIVE or PENDING. -/
def CanBeCancelled (e : Enrollment) : Bool :=
  e.status = EnrollmentStatus.active || e.status = EnrollmentStatus.pending

/-- The enrollment store's visible contents, keyed by enrollment id. -/
abbrev Store := List (String × Enrollment)

/-- Lookup by id (the SELECT of `GetByID`). -/
def storeGet : Store → String → Option Enrollment
  | [], _ => none
  | (k, v) :: rest, i => if k = i then some v else storeGet rest i

/-- Insert or replace the row with the entity's id. -/
def storeSet : Store → Enrollment → Store
  | [], e => [(e.id, e)]
  | (k, v) :: rest, e => if k = e.id then (k, e) :: rest else (k, v) :: storeSet rest e

/-- `enrollmentRepository.Create`: an INSERT that fails on a database fault
or on a duplicate primary key, and otherwise adds the row. -/
def repoCreate (fails : Bool) (s : Store) (e : Enrollment) :
    Except SagaError Unit × Store :=
  if fails ∨ (storeGet s e.id).isSome then (.error .storeFailure, s)
  else (.ok (), storeSet s e)

/-- `enrollmentRepository.Update`: fails on a database fault; with zero rows
affected (no row with that id) it returns `ErrEnrollmentNotFound`; otherwise
it replaces the row.  `fails` is the remaining schedule of database-fault
outcomes, consumed one entry per call (a missing entry means success). -/
def repoUpdate (fails : List Bool) (s : Store) (e : Enrollment) :
    Except SagaError Unit × Store × List Bool :=
  if fails.headD false then (.error .storeFailure, s, fails.tail)
  else
    match storeGet s e.id with
    | none => (.error .notFound, s, fails.tail)
    | some _ => (.ok (), storeSet s e, fails.tail)

/-- Response of one `ProcessPayment` call: the payment record's id and
status, or `none` for a transport-level error. -/
structure PaymentInfo where
  id : String
  status : PaymentStatus
deriving DecidableEq, Repr

/-- Outcomes of the remote calls and store faults a single orchestrator
operation can encounter, fixed up front: the environment the saga runs in. -/
structure Env where
  createFails : Bool
  getFails : Bool
  updateFails : List Bool
  paymentResp : Option PaymentInfo
  refundResp : Option PaymentStatus
  publishFails : Bool
deriving DecidableEq, Repr

/-- `EnrollmentRequest` of the saga package. -/
structure EnrollmentRequest where
  userID : String
  courseID : String
  amount : Rat
  paymentToken : String
deriving DecidableEq, Repr

/-- `processPayment`: a transport error is wrapped as a payment-service
error; a non-COMPLETED status is a failure; otherwise the payment id is
returned. -/
def processPayment (resp : Option PaymentInfo) : Except SagaError String :=
  match resp with
  | none => .error .paymentServiceError
  | some p =>
    if p.status ≠ PaymentStatus.completed then .error (.paymentBadStatus p.status)
    else .ok p.id

/-- `refundPayment`: a transport error is wrapped as a payment-service
error; a non-COMPLETED refund status is a failure; otherwise success. -/
def refundPayment (resp : Option PaymentStatus) : Except SagaError Unit :=
  match resp with
  | none => .error .refundServiceError
  | some st =>
    if st ≠ PaymentStatus.completed then .error (.refundBadStatus st)
    else .ok ()

/-- The Go assignment `enrollment.Status = domain.StatusCancelled`. -/
def cancelledOf (e : Enrollment) : Enrollment :=
  { e with status := EnrollmentStatus.cancelled }

/-- The Go assignments `enrollment.PaymentID = paymentID;
enrollment.Status = domain.StatusActive`. -/
def activatedOf (e : Enrollment) (paymentID : String) : Enrollment :=
  { e with paymentID := paymentID, status := EnrollmentStatus.active }

/-- The Go assignment `enrollment.Status = domain.StatusRefunded`. -/
def refundedOf (e : Enrollment) : Enrollment :=
  { e with status := EnrollmentStatus.refunded }

/-- The enrollment-outcome event published at the end of a successful saga
(`domain.EnrollmentEvent`). -/
structure EnrollmentEvent where
  enrollmentID : String
  userID : String
  courseID : String
  status : EnrollmentStatus
  amount : Rat
  timestamp : Nat
deriving DecidableEq, Repr

/-- Observable outcome of one `Execute` run: the returned value, the store
after the run, every refund-client invocation (the payment ids passed, in
order), every event-publish attempt, and the successive in-memory versions
of the enrollment entity (each assignment to its fields yields one entry). -/
structure ExecResult where
  result : Except SagaError Enrollment
  store : Store
  refundCalls : List String
  events : List EnrollmentEvent
  versions : List Enrollment
deriving Repr

/-- The enrollment constructed at step 1 of `Execute`: fresh id, PENDING,
amount from the request, zero-valued payment id, progress and completion. -/
def mkEnrollment (freshId : String) (now : Nat) (req : EnrollmentRequest) : Enrollment :=
  { id := freshId
    userID := req.userID
    courseID := req.courseID
    status := EnrollmentStatus.pending
    amountPaid := req.amount
    paymentID := ""
    enrolledAt := now
    completedAt := none
    progressPercentage := 0 }

/-- `EnrollmentSagaOrchestrator.Execute`.  `freshId` stands for the
`uuid.New()` value and `now` for `time.Now()`.  Mirrors the source: validate,
create PENDING, charge; on charge failure write CANCELLED best-effort and
return a wrapped payment error; on charge success write ACTIVE, and if that
write fails refund (result discarded), write REFUNDED best-effort and return
a wrapped activation error; on success publish the event best-effort and
return the ACTIVE entity. -/
def Execute (env : Env) (s : Store) (freshId : String) (now : Nat)
    (req : EnrollmentRequest) : ExecResult :=
  let enrollment := mkEnrollment freshId now req
  match Validate enrollment with
  | .error e => ⟨.error e, s, [], [], [enrollment]⟩
  | .ok _ =>
  match repoCreate env.createFails s enrollment with
  | (.error e, s1) => ⟨.error e, s1, [], [], [enrollment]⟩
  | (.ok _, s1) =>
  match processPayment env.paymentResp with
  | .error perr =>
    ⟨.error (.paymentFailed perr),
      (repoUpdate env.updateFails s1 (cancelledOf enrollment)).2.1, [], [],
      [enrollment, cancelledOf enrollment]⟩
  | .ok paymentID =>
    match repoUpdate env.updateFails s1 (activatedOf enrollment paymentID) with
    | (.error uerr, s2, rest) =>
      let _ := refundPayment env.refundResp
      ⟨.error (.activationFailed uerr),
        (repoUpdate rest s2 (refundedOf (activatedOf enrollment paymentID))).2.1,
        [paymentID], [],
        [enrollment, activatedOf enrollment paymentID,
          refundedOf (activatedOf enrollment paymentID)]⟩
    | (.ok _, s2, _) =>
      let activated := activatedOf enrollment paymentID
      let event : EnrollmentEvent :=
        { enrollmentID := activated.id
          userID := activated.userID
          courseID := activated.courseID
          status := activated.status
          amount := activated.amountPaid
          timestamp := now }
      ⟨.ok activated, s2, [paymentID], [event], [enrollment, activated]⟩

/-- Observable outcome of one `CancelEnrollment` run. -/
structure CancelResult where
  result : Except SagaError Unit
  store : Store
  refundCalls : List String
  versions : List Enrollment
deriving Repr

/-- `EnrollmentSagaOrchestrator.CancelEnrollment`.  In the source, inside the
branch for a non-empty payment id the refund's error is bound by a `:=` inside
the `if` statement's own scope and only logged; the `return err` that follows
refers to the enclosing `err` from `GetByID`, which is nil on this path, so
the branch returns success and performs no store write whatever the refund
outcome. -/
def CancelEnrollment (env : Env) (s : Store) (enrollmentID : String) : CancelResult :=
  if env.getFails then ⟨.error .storeFailure, s, [], []⟩
  else
  match storeGet s enrollmentID with
  | none => ⟨.error .notFound, s, [], []⟩
  | some e =>
    if ¬ CanBeCancelled e then ⟨.error (.invalidState e.status), s, [], []⟩
    else if e.paymentID ≠ "" then
      let _ := refundPayment env.refundResp
      ⟨.ok (), s, [e.paymentID], []⟩
    else
      match repoUpdate env.updateFails s (cancelledOf e) with
      | (.error uerr, s1, _) => ⟨.error uerr, s1, [], [cancelledOf e]⟩
      | (.ok _, s1, _) => ⟨.ok (), s1, [], [cancelledOf e]⟩

/-- Whether a saga error carries any refund-failure information, looking
through the wrapping constructors. -/
def mentionsRefund : SagaError → Bool
  | .refundServiceError => true
  | .refundBadStatus _ => true
  | .paymentFailed inner => mentionsRefund inner
  | .activationFailed inner => mentionsRefund inner
  | _ => false

/-- The payment-client contract the spec assumes: a completed charge is
identified by a non-empty payment id. -/
def PaymentContract (env : Env) : Prop :=
  ∀ pid, processPayment env.paymentResp = .ok pid → pid ≠ ""

/-- Audit property of a sequence of in-memory enrollment versions, threading
whether ACTIVE has been seen (`seen`) and the previous payment id (`prev`):
each version keeps a previously set payment id unchanged, and its payment id
is non-empty exactly when ACTIVE has been reached at or before it. -/
def auditOk : Bool → String → List Enrollment → Bool
  | _, _, [] => true
  | seen, prev, e :: rest =>
    let seenNow := seen || decide (e.status = EnrollmentStatus.active)
    (prev = "" || e.paymentID = prev) &&
    (decide (e.paymentID ≠ "") == seenNow) &&
    auditOk seenNow e.paymentID rest

/-- Reading back the row just written. -/
theorem storeGet_storeSet_self (s : Store) (e : Enrollment) :
    storeGet (storeSet s e) e.id = some e := by
  induction s with
  | nil => simp [storeSet, storeGet]
  | cons kv rest ih =>
    obtain ⟨k, v⟩ := kv
    by_cases hk : k = e.id
    · simp [storeSet, storeGet, hk]
    · simp [storeSet, storeGet, hk, ih]

/-- A successful update leaves exactly the written row. -/
theorem repoUpdate_ok_store (fails : List Bool) (s s1 : Store) (e : Enrollment)
    (rest : List Bool)
    (hu : repoUpdate fails s e = (.ok (), s1, rest)) :
    s1 = storeSet s e := by
  unfold repoUpdate at hu
  rcases hf : fails.headD false with _ | _
  · rw [hf] at hu
    simp at hu
    rcases hg : storeGet s e.id with _ | w
    · rw [hg] at hu; simp at hu
    · rw [hg] at hu; simp at hu; exact hu.1.symm
  · rw [hf] at hu; simp at hu

/-- An update with no scheduled fault, on a present row, succeeds and
writes the row. -/
theorem repoUpdate_found (fails : List Bool) (s : Store) (e w : Enrollment)
    (hf : fails.headD false = false) (hg : storeGet s e.id = some w) :
    repoUpdate fails s e = (.ok (), storeSet s e, fails.tail) := by
  simp only [repoUpdate, hf, hg]
  simp

/-- An update whose scheduled database fault fires changes nothing. -/
theorem repoUpdate_fault (fails : List Bool) (s : Store) (e : Enrollment)
    (hf : fails.headD false = true) :
    repoUpdate fails s e = (.error .storeFailure, s, fails.tail) := by
  simp only [repoUpdate, hf]
  simp

/-- A create with no fault and a fresh id succeeds and inserts the row. -/
theorem repoCreate_ok (fails : Bool) (s : Store) (e : Enrollment)
    (hf : fails = false) (hg : storeGet s e.id = none) :
    repoCreate fails s e = (.ok (), storeSet s e) := by
  simp [repoCreate, hf, hg]

/-- C1: whenever `Execute` returns without error, the returned enrollment is
ACTIVE (in particular not PENDING), carries a non-empty payment id (the
payment client identifies a completed charge by a non-empty id), and the
store holds that same ACTIVE record under its id. -/
theorem execute_ok_returns_active (env : Env) (s : Store) (freshId : String)
    (now : Nat) (req : EnrollmentRequest) (enr : Enrollment)
    (hcontract : PaymentContract env)
    (h : (Execute env s freshId now req).result = .ok enr) :
    enr.status = EnrollmentStatus.active ∧
    enr.status ≠ EnrollmentStatus.pending ∧
    enr.paymentID ≠ "" ∧
    storeGet (Execute env s freshId now req).store enr.id = some enr := by
  simp only [Execute] at h ⊢
  rcases hv : Validate (mkEnrollment freshId now req) with ev | u
  · simp [hv] at h
  simp only [hv] at h ⊢
  rcases hc : repoCreate env.createFails s (mkEnrollment freshId now req) with ⟨cres, s1⟩
  rcases cres with ce | cu
  · simp [hc] at h
  simp only [hc] at h ⊢
  rcases hp : processPayment env.paymentResp with perr | pid
  · simp [hp] at h
  simp only [hp] at h ⊢
  rcases hu : repoUpdate env.updateFails s1 (activatedOf (mkEnrollment freshId now req) pid)
    with ⟨ures, s2, rest⟩
  rcases ures with ue | uu
  · simp [hu] at h
  simp only [hu] at h ⊢
  injection h with h
  subst h
  refine ⟨by simp [activatedOf], by simp [activatedOf], ?_, ?_⟩
  · have := hcontract pid hp
    simpa [activatedOf] using this
  · rw [repoUpdate_ok_store _ _ _ _ _ hu]
    exact storeGet_storeSet_self _ _

/-- C1 witness: a concrete fault-free run returns the ACTIVE record and the
store agrees. -/
theorem execute_ok_returns_active_witness :
    (⟨"e1", "u1", "c1", EnrollmentStatus.active, 10, "pay1", 0, none, 0⟩ :
        Enrollment).status = EnrollmentStatus.active ∧
    (⟨"e1", "u1", "c1", EnrollmentStatus.active, 10, "pay1", 0, none, 0⟩ :
        Enrollment).status ≠ EnrollmentStatus.pending ∧
    (⟨"e1", "u1", "c1", EnrollmentStatus.active, 10, "pay1", 0, none, 0⟩ :
        Enrollment).paymentID ≠ "" ∧
    storeGet
      (Execute ⟨false, false, [], some ⟨"pay1", PaymentStatus.completed⟩,
          some PaymentStatus.completed, false⟩
        [] "e1" 0 ⟨"u1", "c1", 10, "tok"⟩).store
      (⟨"e1", "u1", "c1", EnrollmentStatus.active, 10, "pay1", 0, none, 0⟩ :
        Enrollment).id =
      some ⟨"e1", "u1", "c1", EnrollmentStatus.active, 10, "pay1", 0, none, 0⟩ :=
  execute_ok_returns_active
    ⟨false, false, [], some ⟨"pay1", PaymentStatus.completed⟩,
      some PaymentStatus.completed, false⟩
    [] "e1" 0 ⟨"u1", "c1", 10, "tok"⟩
    ⟨"e1", "u1", "c1", EnrollmentStatus.active, 10, "pay1", 0, none, 0⟩
    (by intro pid hp; simp [processPayment] at hp; simp [← hp])
    rfl

/-- C2: when the payment client reports failure (transport error or a
non-COMPLETED status), `Execute` returns a wrapped payment error, issues no
refund call, and the record written on the best-effort cancellation path is
CANCELLED with an empty payment id; if that write's fault does not fire, the
store holds exactly that CANCELLED record. -/
theorem execute_payment_failure_cancels (env : Env) (s : Store) (freshId : String)
    (now : Nat) (req : EnrollmentRequest) (perr : SagaError)
    (hv : Validate (mkEnrollment freshId now req) = .ok ())
    (hcreate : env.createFails = false)
    (hfresh : storeGet s freshId = none)
    (hp : processPayment env.paymentResp = .error perr) :
    (Execute env s freshId now req).result = .error (.paymentFailed perr) ∧
    (Execute env s freshId now req).refundCalls = [] ∧
    (cancelledOf (mkEnrollment freshId now req)).status = EnrollmentStatus.cancelled ∧
    (cancelledOf (mkEnrollment freshId now req)).paymentID = "" ∧
    (env.updateFails.headD false = false →
      storeGet (Execute env s freshId now req).store freshId =
        some (cancelledOf (mkEnrollment freshId now req))) := by
  have hcr : repoCreate env.createFails s (mkEnrollment freshId now req) =
      (.ok (), storeSet s (mkEnrollment freshId now req)) :=
    repoCreate_ok _ _ _ hcreate hfresh
  simp only [Execute, hv, hcr, hp]
  refine ⟨trivial, trivial, rfl, rfl, ?_⟩
  intro hupd
  have hg : storeGet (storeSet s (mkEnrollment freshId now req))
      (cancelledOf (mkEnrollment freshId now req)).id =
      some (mkEnrollment freshId now req) :=
    storeGet_storeSet_self s (mkEnrollment freshId now req)
  rw [repoUpdate_found _ _ _ _ hupd hg]
  exact storeGet_storeSet_self _ _

/-- C2 witness: a declined charge on a concrete run. -/
theorem execute_payment_failure_cancels_witness :
    (Execute ⟨false, false, [], some ⟨"pay1", PaymentStatus.declined⟩, none, false⟩
        [] "e1" 0 ⟨"u1", "c1", 10, "tok"⟩).result =
      .error (.paymentFailed (.paymentBadStatus PaymentStatus.declined)) ∧
    (Execute ⟨false, false, [], some ⟨"pay1", PaymentStatus.declined⟩, none, false⟩
        [] "e1" 0 ⟨"u1", "c1", 10, "tok"⟩).refundCalls = [] ∧
    (cancelledOf (mkEnrollment "e1" 0 ⟨"u1", "c1", 10, "tok"⟩)).status =
      EnrollmentStatus.cancelled ∧
    (cancelledOf (mkEnrollment "e1" 0 ⟨"u1", "c1", 10, "tok"⟩)).paymentID = "" ∧
    ((⟨false, false, [], some ⟨"pay1", PaymentStatus.declined⟩, none, false⟩ :
        Env).updateFails.headD false = false →
      storeGet
        (Execute ⟨false, false, [], some ⟨"pay1", PaymentStatus.declined⟩, none, false⟩
          [] "e1" 0 ⟨"u1", "c1", 10, "tok"⟩).store "e1" =
        some (cancelledOf (mkEnrollment "e1" 0 ⟨"u1", "c1", 10, "tok"⟩))) :=
  execute_payment_failure_cancels
    ⟨false, false, [], some ⟨"pay1", PaymentStatus.declined⟩, none, false⟩
    [] "e1" 0 ⟨"u1", "c1", 10, "tok"⟩
    (.paymentBadStatus PaymentStatus.declined) rfl rfl rfl rfl

/-- C3: when the charge completes but the activation write's fault fires,
`Execute` invokes the refund client exactly once with the charge's payment
id, returns a wrapped activation error, and the record written on the
best-effort compensation path is REFUNDED and still carries that payment id;
if that second write's fault does not fire, the store holds exactly that
REFUNDED record. -/
theorem execute_activation_failure_refunds (env : Env) (s : Store) (freshId : String)
    (now : Nat) (req : EnrollmentRequest) (pid : String)
    (hv : Validate (mkEnrollment freshId now req) = .ok ())
    (hcreate : env.createFails = false)
    (hfresh : storeGet s freshId = none)
    (hp : processPayment env.paymentResp = .ok pid)
    (hu1 : env.updateFails.headD false = true) :
    (Execute env s freshId now req).result =
      .error (.activationFailed .storeFailure) ∧
    (Execute env s freshId now req).refundCalls = [pid] ∧
    (refundedOf (activatedOf (mkEnrollment freshId now req) pid)).status =
      EnrollmentStatus.refunded ∧
    (refundedOf (activatedOf (mkEnrollment freshId now req) pid)).paymentID = pid ∧
    (env.updateFails.tail.headD false = false →
      storeGet (Execute env s freshId now req).store freshId =
        some (refundedOf (activatedOf (mkEnrollment freshId now req) pid))) := by
  have hcr : repoCreate env.createFails s (mkEnrollment freshId now req) =
      (.ok (), storeSet s (mkEnrollment freshId now req)) :=
    repoCreate_ok _ _ _ hcreate hfresh
  have hup1 := repoUpdate_fault env.updateFails
    (storeSet s (mkEnrollment freshId now req))
    (activatedOf (mkEnrollment freshId now req) pid) hu1
  simp only [Execute, hv, hcr, hp, hup1]
  refine ⟨trivial, trivial, rfl, rfl, ?_⟩
  intro hupd2
  have hg : storeGet (storeSet s (mkEnrollment freshId now req))
      (refundedOf (activatedOf (mkEnrollment freshId now req) pid)).id =
      some (mkEnrollment freshId now req) :=
    storeGet_storeSet_self s (mkEnrollment freshId now req)
  rw [repoUpdate_found _ _ _ _ hupd2 hg]
  exact storeGet_storeSet_self _ _

/-- C3 witness: a concrete run whose activation write fails. -/
theorem execute_activation_failure_refunds_witness :
    (Execute ⟨false, false, [true], some ⟨"pay1", PaymentStatus.completed⟩,
        some PaymentStatus.completed, false⟩
        [] "e1" 0 ⟨"u1", "c1", 10, "tok"⟩).result =
      .error (.activationFailed .storeFailure) ∧
    (Execute ⟨false, false, [true], some ⟨"pay1", PaymentStatus.completed⟩,
        some PaymentStatus.completed, false⟩
        [] "e1" 0 ⟨"u1", "c1", 10, "tok"⟩).refundCalls = ["pay1"] ∧
    (refundedOf (activatedOf (mkEnrollment "e1" 0 ⟨"u1", "c1", 10, "tok"⟩)
        "pay1")).status = EnrollmentStatus.refunded ∧
    (refundedOf (activatedOf (mkEnrollment "e1" 0 ⟨"u1", "c1", 10, "tok"⟩)
        "pay1")).paymentID = "pay1" ∧
    ((⟨false, false, [true], some ⟨"pay1", PaymentStatus.completed⟩,
        some PaymentStatus.completed, false⟩ :
        Env).updateFails.tail.headD false = false →
      storeGet
        (Execute ⟨false, false, [true], some ⟨"pay1", PaymentStatus.completed⟩,
          some PaymentStatus.completed, false⟩
          [] "e1" 0 ⟨"u1", "c1", 10, "tok"⟩).store "e1" =
        some (refundedOf (activatedOf (mkEnrollment "e1" 0 ⟨"u1", "c1", 10, "tok"⟩)
          "pay1"))) :=
  execute_activation_failure_refunds
    ⟨false, false, [true], some ⟨"pay1", PaymentStatus.completed⟩,
      some PaymentStatus.completed, false⟩
    [] "e1" 0 ⟨"u1", "c1", 10, "tok"⟩ "pay1" rfl rfl rfl rfl rfl

/-- C4 (code-slip evidence): with a refund client that reports failure,
cancelling an ACTIVE enrollment holding payment id "pay1" attempts the
refund yet returns success — in the source the `return err` after the refund
refers to the enclosing nil error from `GetByID`, shadowed by the refund
error bound inside the `if` — and the stored record is untouched. -/
theorem cancel_refund_failure_not_reported :
    refundPayment (some PaymentStatus.failed) =
      .error (.refundBadStatus PaymentStatus.failed) ∧
    (CancelEnrollment ⟨false, false, [], none, some PaymentStatus.failed, false⟩
        [("e1", ⟨"e1", "u1", "c1", EnrollmentStatus.active, 10, "pay1", 0, none, 0⟩)]
        "e1").result = .ok () ∧
    (CancelEnrollment ⟨false, false, [], none, some PaymentStatus.failed, false⟩
        [("e1", ⟨"e1", "u1", "c1", EnrollmentStatus.active, 10, "pay1", 0, none, 0⟩)]
        "e1").refundCalls = ["pay1"] ∧
    storeGet
      (CancelEnrollment ⟨false, false, [], none, some PaymentStatus.failed, false⟩
        [("e1", ⟨"e1", "u1", "c1", EnrollmentStatus.active, 10, "pay1", 0, none, 0⟩)]
        "e1").store "e1" =
      some ⟨"e1", "u1", "c1", EnrollmentStatus.active, 10, "pay1", 0, none, 0⟩ :=
  ⟨rfl, rfl, rfl, rfl⟩

/-- C5 counterexample: cancelling an ACTIVE enrollment with payment id
"pay1" against a refund client that reports success issues the refund but
leaves the stored status ACTIVE — the explicit-cancellation path never
transitions the record to REFUNDED. -/
theorem cancel_no_refunded_transition_counterexample :
    refundPayment (some PaymentStatus.completed) = .ok () ∧
    (CancelEnrollment ⟨false, false, [], none, some PaymentStatus.completed, false⟩
        [("e1", ⟨"e1", "u1", "c1", EnrollmentStatus.active, 10, "pay1", 0, none, 0⟩)]
        "e1").refundCalls = ["pay1"] ∧
    storeGet
      (CancelEnrollment ⟨false, false, [], none, some PaymentStatus.completed, false⟩
        [("e1", ⟨"e1", "u1", "c1", EnrollmentStatus.active, 10, "pay1", 0, none, 0⟩)]
        "e1").store "e1" =
      some ⟨"e1", "u1", "c1", EnrollmentStatus.active, 10, "pay1", 0, none, 0⟩ ∧
    EnrollmentStatus.active ≠ EnrollmentStatus.refunded :=
  ⟨rfl, rfl, rfl, by decide⟩

/-- C5 amended: when a cancellation request reaches a cancellable enrollment
that carries a payment id, the refund client is invoked with that id but
the store is left entirely unchanged (no transition to REFUNDED or any
other status) and the call reports success. -/
theorem cancel_with_payment_leaves_store (env : Env) (s : Store) (id : String)
    (e : Enrollment) (hget : env.getFails = false) (he : storeGet s id = some e)
    (hc : CanBeCancelled e = true) (hpid : e.paymentID ≠ "") :
    (CancelEnrollment env s id).result = .ok () ∧
    (CancelEnrollment env s id).store = s ∧
    (CancelEnrollment env s id).refundCalls = [e.paymentID] := by
  simp [CancelEnrollment, hget, he, hc, hpid]

/-- C5 amended witness: a concrete cancellation with a payment id present. -/
theorem cancel_with_payment_leaves_store_witness :
    (CancelEnrollment ⟨false, false, [], none, some PaymentStatus.completed, false⟩
        [("e1", ⟨"e1", "u1", "c1", EnrollmentStatus.active, 10, "pay1", 0, none, 0⟩)]
        "e1").result = .ok () ∧
    (CancelEnrollment ⟨false, false, [], none, some PaymentStatus.completed, false⟩
        [("e1", ⟨"e1", "u1", "c1", EnrollmentStatus.active, 10, "pay1", 0, none, 0⟩)]
        "e1").store =
      [("e1", ⟨"e1", "u1", "c1", EnrollmentStatus.active, 10, "pay1", 0, none, 0⟩)] ∧
    (CancelEnrollment ⟨false, false, [], none, some PaymentStatus.completed, false⟩
        [("e1", ⟨"e1", "u1", "c1", EnrollmentStatus.active, 10, "pay1", 0, none, 0⟩)]
        "e1").refundCalls =
      [(⟨"e1", "u1", "c1", EnrollmentStatus.active, 10, "pay1", 0, none, 0⟩ :
        Enrollment).paymentID] :=
  cancel_with_payment_leaves_store
    ⟨false, false, [], none, some PaymentStatus.completed, false⟩
    [("e1", ⟨"e1", "u1", "c1", EnrollmentStatus.active, 10, "pay1", 0, none, 0⟩)]
    "e1" ⟨"e1", "u1", "c1", EnrollmentStatus.active, 10, "pay1", 0, none, 0⟩
    rfl rfl rfl (by decide)

/-- C6 counterexample: a concrete compensation run whose refund fails:
`Execute` returns only the wrapped activation failure, which carries no
refund-failure information. -/
theorem execute_refund_error_silent_counterexample :
    refundPayment ((⟨false, false, [true], some ⟨"pay1", PaymentStatus.completed⟩,
        some PaymentStatus.failed, false⟩ : Env).refundResp) =
      .error (.refundBadStatus PaymentStatus.failed) ∧
    (Execute ⟨false, false, [true], some ⟨"pay1", PaymentStatus.completed⟩,
        some PaymentStatus.failed, false⟩ [] "e1" 0 ⟨"u1", "c1", 10, "tok"⟩).result =
      .error (.activationFailed .storeFailure) ∧
    mentionsRefund (.activationFailed .storeFailure) = false :=
  ⟨rfl, rfl, rfl⟩

/-- C6 amended: on the compensation path, even when the refund itself fails,
the error `Execute` returns is exactly the wrapped activation failure; the
refund failure is discarded (the returned error mentions no refund
information). -/
theorem execute_refund_error_discarded (env : Env) (s : Store) (freshId : String)
    (now : Nat) (req : EnrollmentRequest) (pid : String) (re : SagaError)
    (hv : Validate (mkEnrollment freshId now req) = .ok ())
    (hcreate : env.createFails = false)
    (hfresh : storeGet s freshId = none)
    (hp : processPayment env.paymentResp = .ok pid)
    (hu1 : env.updateFails.headD false = true)
    (hr : refundPayment env.refundResp = .error re) :
    (Execute env s freshId now req).result =
      .error (.activationFailed .storeFailure) ∧
    mentionsRefund (SagaError.activationFailed SagaError.storeFailure) = false := by
  have hcr : repoCreate env.createFails s (mkEnrollment freshId now req) =
      (.ok (), storeSet s (mkEnrollment freshId now req)) :=
    repoCreate_ok _ _ _ hcreate hfresh
  have hup1 := repoUpdate_fault env.updateFails
    (storeSet s (mkEnrollment freshId now req))
    (activatedOf (mkEnrollment freshId now req) pid) hu1
  simp only [Execute, hv, hcr, hp, hup1]
  exact ⟨trivial, rfl⟩

/-- C6 amended witness: the concrete run of the counterexample, through the
general statement. -/
theorem execute_refund_error_discarded_witness :
    (Execute ⟨false, false, [true], some ⟨"pay1", PaymentStatus.completed⟩,
        some PaymentStatus.failed, false⟩ [] "e1" 0 ⟨"u1", "c1", 10, "tok"⟩).result =
      .error (.activationFailed .storeFailure) ∧
    mentionsRefund (SagaError.activationFailed SagaError.storeFailure) = false :=
  execute_refund_error_discarded
    ⟨false, false, [true], some ⟨"pay1", PaymentStatus.completed⟩,
      some PaymentStatus.failed, false⟩
    [] "e1" 0 ⟨"u1", "c1", 10, "tok"⟩ "pay1"
    (.refundBadStatus PaymentStatus.failed) rfl rfl rfl rfl rfl rfl

/-- C7: `Validate` fails exactly on an empty user id, empty course id,
negative amount, or out-of-range progress; and when the enrollment `Execute`
constructs is invalid, `Execute` returns the validation error with the store
untouched (no write at all) and no refund call. -/
theorem validate_exact_and_blocks_execute (e : Enrollment) (env : Env) (s : Store)
    (freshId : String) (now : Nat) (req : EnrollmentRequest) :
    (Validate e = .error .invalidInput ↔
      (e.userID = "" ∨ e.courseID = "" ∨ e.amountPaid < 0 ∨
        e.progressPercentage < 0 ∨ e.progressPercentage > 100)) ∧
    (Validate (mkEnrollment freshId now req) = .error .invalidInput →
      (Execute env s freshId now req).result = .error .invalidInput ∧
      (Execute env s freshId now req).store = s ∧
      (Execute env s freshId now req).refundCalls = []) := by
  constructor
  · unfold Validate
    repeat' split
    all_goals simp_all
  · intro hv
    simp [Execute, hv]

/-- C7 witness: a request with an empty user id is rejected before any
store interaction. -/
theorem validate_exact_and_blocks_execute_witness :
    Validate ⟨"e1", "", "c1", EnrollmentStatus.pending, 10, "", 0, none, 0⟩ =
      .error .invalidInput ∧
    (Execute ⟨false, false, [], none, none, false⟩ [] "e1" 0
        ⟨"", "c1", 10, "tok"⟩).result = .error .invalidInput ∧
    (Execute ⟨false, false, [], none, none, false⟩ [] "e1" 0
        ⟨"", "c1", 10, "tok"⟩).store = [] ∧
    (Execute ⟨false, false, [], none, none, false⟩ [] "e1" 0
        ⟨"", "c1", 10, "tok"⟩).refundCalls = [] := by
  have h := validate_exact_and_blocks_execute
    ⟨"e1", "", "c1", EnrollmentStatus.pending, 10, "", 0, none, 0⟩
    ⟨false, false, [], none, none, false⟩ [] "e1" 0 ⟨"", "c1", 10, "tok"⟩
  exact ⟨(h.1).mpr (Or.inl rfl), h.2 rfl⟩

/-- C8: `CanBeCancelled` holds exactly in PENDING or ACTIVE, and a
cancellation of an enrollment in any other status returns the invalid-state
error with no side effects: the store is unchanged and no refund call is
issued. -/
theorem canBeCancelled_exact_and_no_side_effects (e eStored : Enrollment)
    (env : Env) (s : Store) (id : String) :
    (CanBeCancelled e = true ↔
      (e.status = EnrollmentStatus.pending ∨ e.status = EnrollmentStatus.active)) ∧
    (env.getFails = false → storeGet s id = some eStored →
      CanBeCancelled eStored = false →
      (CancelEnrollment env s id).result = .error (.invalidState eStored.status) ∧
      (CancelEnrollment env s id).store = s ∧
      (CancelEnrollment env s id).refundCalls = []) := by
  constructor
  · cases h : e.status <;> simp [CanBeCancelled, h]
  · intro hget he hcc
    simp [CancelEnrollment, hget, he, hcc]

/-- C8 witness: cancelling a COMPLETED enrollment on a concrete store. -/
theorem canBeCancelled_exact_and_no_side_effects_witness :
    (CanBeCancelled ⟨"e1", "u1", "c1", EnrollmentStatus.completed, 10, "pay1",
        0, none, 50⟩ = true ↔
      ((⟨"e1", "u1", "c1", EnrollmentStatus.completed, 10, "pay1", 0, none, 50⟩ :
          Enrollment).status = EnrollmentStatus.pending ∨
        (⟨"e1", "u1", "c1", EnrollmentStatus.completed, 10, "pay1", 0, none, 50⟩ :
          Enrollment).status = EnrollmentStatus.active)) ∧
    ((CancelEnrollment ⟨false, false, [], none, none, false⟩
        [("e1", ⟨"e1", "u1", "c1", EnrollmentStatus.completed, 10, "pay1", 0, none, 50⟩)]
        "e1").result =
      .error (.invalidState
        (⟨"e1", "u1", "c1", EnrollmentStatus.completed, 10, "pay1", 0, none, 50⟩ :
          Enrollment).status) ∧
    (CancelEnrollment ⟨false, false, [], none, none, false⟩
        [("e1", ⟨"e1", "u1", "c1", EnrollmentStatus.completed, 10, "pay1", 0, none, 50⟩)]
        "e1").store =
      [("e1", ⟨"e1", "u1", "c1", EnrollmentStatus.completed, 10, "pay1", 0, none, 50⟩)] ∧
    (CancelEnrollment ⟨false, false, [], none, none, false⟩
        [("e1", ⟨"e1", "u1", "c1", EnrollmentStatus.completed, 10, "pay1", 0, none, 50⟩)]
        "e1").refundCalls = []) := by
  have h := canBeCancelled_exact_and_no_side_effects
    ⟨"e1", "u1", "c1", EnrollmentStatus.completed, 10, "pay1", 0, none, 50⟩
    ⟨"e1", "u1", "c1", EnrollmentStatus.completed, 10, "pay1", 0, none, 50⟩
    ⟨false, false, [], none, none, false⟩
    [("e1", ⟨"e1", "u1", "c1", EnrollmentStatus.completed, 10, "pay1", 0, none, 50⟩)]
    "e1"
  exact ⟨h.1, h.2 rfl rfl rfl⟩

/-- C9: a cancellation of a PENDING enrollment with no payment id issues no
refund call, writes the CANCELLED record, and reports success. -/
theorem cancel_pending_no_payment_cancels (env : Env) (s : Store) (id : String)
    (e : Enrollment)
    (hget : env.getFails = false)
    (he : storeGet s id = some e)
    (hid : e.id = id)
    (hst : e.status = EnrollmentStatus.pending)
    (hpid : e.paymentID = "")
    (hupd : env.updateFails.headD false = false) :
    (CancelEnrollment env s id).result = .ok () ∧
    (CancelEnrollment env s id).refundCalls = [] ∧
    (cancelledOf e).status = EnrollmentStatus.cancelled ∧
    storeGet (CancelEnrollment env s id).store id = some (cancelledOf e) := by
  have hcc : CanBeCancelled e = true := by simp [CanBeCancelled, hst]
  have hg : storeGet s (cancelledOf e).id = some e := by
    simpa [cancelledOf, hid] using he
  have hru := repoUpdate_found env.updateFails s (cancelledOf e) e hupd hg
  refine ⟨?_, ?_, rfl, ?_⟩
  · simp [CancelEnrollment, hget, he, hcc, hpid, hru]
  · simp [CancelEnrollment, hget, he, hcc, hpid, hru]
  · simp [CancelEnrollment, hget, he, hcc, hpid, hru]
    have := storeGet_storeSet_self s (cancelledOf e)
    simpa [cancelledOf, hid] using this

/-- C9 witness: a concrete PENDING enrollment with no payment id. -/
theorem cancel_pending_no_payment_cancels_witness :
    (CancelEnrollment ⟨false, false, [], none, none, false⟩
        [("e1", ⟨"e1", "u1", "c1", EnrollmentStatus.pending, 10, "", 0, none, 0⟩)]
        "e1").result = .ok () ∧
    (CancelEnrollment ⟨false, false, [], none, none, false⟩
        [("e1", ⟨"e1", "u1", "c1", EnrollmentStatus.pending, 10, "", 0, none, 0⟩)]
        "e1").refundCalls = [] ∧
    (cancelledOf ⟨"e1", "u1", "c1", EnrollmentStatus.pending, 10, "", 0, none, 0⟩).status =
      EnrollmentStatus.cancelled ∧
    storeGet
      (CancelEnrollment ⟨false, false, [], none, none, false⟩
        [("e1", ⟨"e1", "u1", "c1", EnrollmentStatus.pending, 10, "", 0, none, 0⟩)]
        "e1").store "e1" =
      some (cancelledOf ⟨"e1", "u1", "c1", EnrollmentStatus.pending, 10, "", 0, none, 0⟩) :=
  cancel_pending_no_payment_cancels
    ⟨false, false, [], none, none, false⟩
    [("e1", ⟨"e1", "u1", "c1", EnrollmentStatus.pending, 10, "", 0, none, 0⟩)]
    "e1" ⟨"e1", "u1", "c1", EnrollmentStatus.pending, 10, "", 0, none, 0⟩
    rfl rfl rfl rfl rfl rfl

/-- C10: along every `Execute` run (under the payment-client contract that a
completed charge has a non-empty id), the successive in-memory versions of
the enrollment satisfy the audit property — the payment id is non-empty
exactly when ACTIVE has been reached at or before that version, and once set
it is never cleared or changed, including on the move to REFUNDED; and every
`CancelEnrollment` run preserves the same property from any fetched
enrollment whose payment id matches its ACTIVE history. -/
theorem paymentID_audit_invariant (env : Env) (s : Store) (freshId : String)
    (now : Nat) (req : EnrollmentRequest) (id : String) (e : Enrollment)
    (seen : Bool) (hcontract : PaymentContract env) :
    (auditOk false "" (Execute env s freshId now req).versions = true) ∧
    (env.getFails = false → storeGet s id = some e →
      ((e.paymentID ≠ "") ↔ seen = true) →
      auditOk seen e.paymentID (CancelEnrollment env s id).versions = true) := by
  constructor
  · simp only [Execute]
    rcases hv : Validate (mkEnrollment freshId now req) with ev | u
    · simp [auditOk, mkEnrollment]
    rcases hc : repoCreate env.createFails s (mkEnrollment freshId now req) with ⟨cres, s1⟩
    rcases cres with ce | cu
    · simp [auditOk, mkEnrollment]
    rcases hp : processPayment env.paymentResp with perr | pid
    · simp [auditOk, mkEnrollment, cancelledOf]
    have hpid : pid ≠ "" := hcontract pid hp
    repeat' split
    all_goals simp_all [auditOk, mkEnrollment, cancelledOf, activatedOf, refundedOf]
  · intro hget he hiff
    rcases hcc : CanBeCancelled e with _ | _
    · simp [CancelEnrollment, hget, he, hcc, auditOk]
    by_cases hpid : e.paymentID = ""
    · have hseen : seen = false := by
        rcases seen with _ | _
        · rfl
        · exact absurd (hiff.mpr rfl) (by simp [hpid])
      simp only [CancelEnrollment]
      simp [hget, he, hcc, hpid]
      split <;> simp [auditOk, cancelledOf, hpid, hseen]
    · simp [CancelEnrollment, hget, he, hcc, hpid, auditOk]

/-- C10 witness: the audit property on a concrete successful run and on a
concrete cancellation of an ACTIVE enrollment with a payment id. -/
theorem paymentID_audit_invariant_witness :
    (auditOk false ""
      (Execute ⟨false, false, [], some ⟨"pay1", PaymentStatus.completed⟩,
          some PaymentStatus.completed, false⟩
        [("eA", ⟨"eA", "u2", "c2", EnrollmentStatus.active, 20, "payA", 0, none, 0⟩)]
        "e1" 0 ⟨"u1", "c1", 10, "tok"⟩).versions = true) ∧
    (auditOk true
      (⟨"eA", "u2", "c2", EnrollmentStatus.active, 20, "payA", 0, none, 0⟩ :
        Enrollment).paymentID
      (CancelEnrollment ⟨false, false, [], some ⟨"pay1", PaymentStatus.completed⟩,
          some PaymentStatus.completed, false⟩
        [("eA", ⟨"eA", "u2", "c2", EnrollmentStatus.active, 20, "payA", 0, none, 0⟩)]
        "eA").versions = true) := by
  have h := paymentID_audit_invariant
    ⟨false, false, [], some ⟨"pay1", PaymentStatus.completed⟩,
      some PaymentStatus.completed, false⟩
    [("eA", ⟨"eA", "u2", "c2", EnrollmentStatus.active, 20, "payA", 0, none, 0⟩)]
    "e1" 0 ⟨"u1", "c1", 10, "tok"⟩ "eA"
    ⟨"eA", "u2", "c2", EnrollmentStatus.active, 20, "payA", 0, none, 0⟩ true
    (by intro pid hp; simp [processPayment] at hp; simp [← hp])
  exact ⟨h.1, h.2 rfl rfl (by decide)⟩

end Saga
